import Mathlib

/-!
Shallow embedding of the reconciliation core of the provider-sonarqube
repository: the SonarQube client data shapes read and written by the
repository, the pure comparator / late-initializer / observation-mapper
functions of the `instance` package, and the Observe/Create/Update/Delete
operations of the `qualitygate` and `qualitygatecondition` controllers.

Go pointer-typed optional fields are embedded as `Option`; in-place
mutation of a managed resource is embedded as explicit state passing
(each controller operation returns the updated resource, the list of
remote calls it issued, and its error result). Remote calls are modelled
by a client record of functions returning `Except String`; `errors.Wrap`
becomes string concatenation of the static label and the cause.
-/

namespace SonarQube

/-! SonarQube client (sonargo) data shapes, with exactly the fields the
repository reads or writes. -/

structure QualitygatesShowObject_sub2 where
  Error : String
  ID : String
  Metric : String
  Op : String
deriving DecidableEq

structure QualitygatesShowObject_sub1 where
  AssociateProjects : Bool
  Copy : Bool
  Delegate : Bool
  Delete : Bool
  ManageAiCodeAssurance : Bool
  ManageConditions : Bool
  Rename : Bool
  SetAsDefault : Bool
deriving DecidableEq

structure QualitygatesShowObject where
  Actions : QualitygatesShowObject_sub1
  CaycStatus : String
  Conditions : List QualitygatesShowObject_sub2
  IsAiCodeSupported : Bool
  IsBuiltIn : Bool
  IsDefault : Bool
  Name : String
deriving DecidableEq

structure QualitygatesCreateObject where
  ID : String
  Name : String
deriving DecidableEq

structure QualitygatesCreateOption where
  Name : String
deriving DecidableEq

structure QualitygatesShowOption where
  Name : String
deriving DecidableEq

structure QualitygatesSetAsDefaultOption where
  Name : String
deriving DecidableEq

structure QualitygatesDestroyOption where
  Name : String
deriving DecidableEq

structure QualitygatesRenameOption where
  CurrentName : String
  Name : String
deriving DecidableEq

structure QualitygatesCreateConditionOption where
  GateName : String
  Error : String
  Metric : String
  Op : String
deriving DecidableEq

structure QualitygatesCreateConditionObject where
  ID : String
deriving DecidableEq

structure QualitygatesUpdateConditionOption where
  Id : String
  Error : String
  Metric : String
  Op : String
deriving DecidableEq

structure QualitygatesDeleteConditionOption where
  Id : String
deriving DecidableEq

end SonarQube

namespace v1alpha1

/-! Kubernetes API types of apis/instance/v1alpha1. -/

structure QualityGateParameters where
  Name : String
  Default : Option Bool
deriving DecidableEq

structure QualityGatesActions where
  AssociateProjects : Bool
  Copy : Bool
  Delegate : Bool
  Delete : Bool
  ManageAiCodeAssurance : Bool
  ManageConditions : Bool
  Rename : Bool
  SetAsDefault : Bool
deriving DecidableEq

structure QualityGateConditionObservation where
  Error : String
  ID : String
  Metric : String
  Op : String
deriving DecidableEq

structure QualityGateObservation where
  Actions : QualityGatesActions
  CaycStatus : String
  Conditions : List QualityGateConditionObservation
  IsAiCodeSupported : Bool
  IsBuiltIn : Bool
  IsDefault : Bool
  Name : String
deriving DecidableEq

/-- Crossplane `xpv1.NamespacedReference`, opaque to the reconciliation
core (carried, never inspected, by the condition parameters). -/
structure NamespacedReference where
  Name : String
deriving DecidableEq

/-- Crossplane `xpv1.NamespacedSelector`, opaque to the reconciliation
core (carried, never inspected, by the condition parameters). -/
structure NamespacedSelector where
  MatchLabels : List (String × String)
deriving DecidableEq

structure QualityGateConditionParameters where
  QualityGateName : Option String
  QualityGateRef : Option NamespacedReference
  QualityGateSelector : Option NamespacedSelector
  Error : String
  Metric : String
  Op : Option String
deriving DecidableEq

end v1alpha1

namespace Helpers

/-- Modelled from the spec: `helpers.IsComparablePtrEqualComparable` of the
repository's `internal/helpers` package, whose source file is not among
the provided sources (only its callers are). Spec section 4.1: a set
optional desired field must equal the literal observed counterpart; an
unset optional field always matches. -/
def IsComparablePtrEqualComparable {α : Type} [DecidableEq α] (p : Option α) (v : α) : Bool :=
  match p with
  | none => true
  | some w => decide (w = v)

/-- Modelled from the spec: `helpers.AssignIfNil` of the repository's
`internal/helpers` package, whose source file is not among the provided
sources (only its callers are). Spec section 4.2: assign the observed
value to the field only when the field is unset; a set field is never
overwritten. The Go in-place pointer assignment is embedded as returning
the new field value. -/
def AssignIfNil {α : Type} (p : Option α) (v : α) : Option α :=
  match p with
  | none => some v
  | some w => some w

end Helpers

namespace Instance

open SonarQube v1alpha1 Helpers

/-! Pure functions of internal/clients/instance (packages
`qualitygate.go` and the quality-gate-condition client file). -/

def GenerateQualityGateConditionObservation (condition : QualitygatesShowObject_sub2) :
    QualityGateConditionObservation :=
  { Error := condition.Error
    ID := condition.ID
    Metric := condition.Metric
    Op := condition.Op }

def GenerateQualityGateConditionsObservation (conditions : List QualitygatesShowObject_sub2) :
    List QualityGateConditionObservation :=
  conditions.map GenerateQualityGateConditionObservation

def notFoundConditionMsg : String := "quality gate condition not found in observation"

def FindQualityGateConditionObservation (id : String) :
    List QualitygatesShowObject_sub2 → Except String QualityGateConditionObservation
  | [] => .error notFoundConditionMsg
  | cond :: rest =>
    if cond.ID = id then .ok (GenerateQualityGateConditionObservation cond)
    else FindQualityGateConditionObservation id rest

/-- Embedding of `GenerateCreateQualityGateConditionOption`. The Go body
unconditionally dereferences `params.QualityGateName`; the nil-pointer
panic is embedded as `none`. -/
def GenerateCreateQualityGateConditionOption (params : QualityGateConditionParameters) :
    Option QualitygatesCreateConditionOption :=
  match params.QualityGateName with
  | none => none
  | some gateName =>
    some { GateName := gateName
           Error := params.Error
           Metric := params.Metric
           Op := match params.Op with
                 | some op => op
                 | none => "" }

def GenerateUpdateQualityGateConditionOption (id : String)
    (params : QualityGateConditionParameters) : QualitygatesUpdateConditionOption :=
  { Id := id
    Error := params.Error
    Metric := params.Metric
    Op := match params.Op with
          | some op => op
          | none => "" }

def GenerateDeleteQualityGateConditionOption (id : String) : QualitygatesDeleteConditionOption :=
  { Id := id }

def IsQualityGateConditionUpToDate (params : Option QualityGateConditionParameters)
    (observation : Option QualityGateConditionObservation) : Bool :=
  match params with
  | none => true
  | some params =>
    match observation with
    | none => false
    | some observation =>
      if params.Error ≠ observation.Error then false
      else if params.Metric ≠ observation.Metric then false
      else if !(IsComparablePtrEqualComparable params.Op observation.Op) then false
      else true

/-- Core of `LateInitializeQualityGateCondition` on non-nil arguments
(the Go in-place mutation of `params` is embedded as returning the
updated parameters). -/
def LateInitializeQualityGateConditionCore (params : QualityGateConditionParameters)
    (observation : QualityGateConditionObservation) : QualityGateConditionParameters :=
  { params with Op := AssignIfNil params.Op observation.Op }

def LateInitializeQualityGateCondition (params : Option QualityGateConditionParameters)
    (observation : Option QualityGateConditionObservation) :
    Option QualityGateConditionParameters :=
  match params, observation with
  | none, _ => none
  | some p, none => some p
  | some p, some o => some (LateInitializeQualityGateConditionCore p o)

def GenerateQualityGateCreateOptions (spec : QualityGateParameters) : QualitygatesCreateOption :=
  { Name := spec.Name }

def GenerateQualityGateActionsObservation (actions : QualitygatesShowObject_sub1) :
    QualityGatesActions :=
  { AssociateProjects := actions.AssociateProjects
    Copy := actions.Copy
    Delegate := actions.Delegate
    Delete := actions.Delete
    ManageAiCodeAssurance := actions.ManageAiCodeAssurance
    ManageConditions := actions.ManageConditions
    Rename := actions.Rename
    SetAsDefault := actions.SetAsDefault }

def GenerateQualityGateObservation (observation : QualitygatesShowObject) :
    QualityGateObservation :=
  { Actions := GenerateQualityGateActionsObservation observation.Actions
    CaycStatus := observation.CaycStatus
    Conditions := GenerateQualityGateConditionsObservation observation.Conditions
    IsAiCodeSupported := observation.IsAiCodeSupported
    IsBuiltIn := observation.IsBuiltIn
    IsDefault := observation.IsDefault
    Name := observation.Name }

def IsQualityGateUpToDate (spec : Option QualityGateParameters)
    (observation : Option QualityGateObservation) : Bool :=
  match spec with
  | none => true
  | some spec =>
    match observation with
    | none => false
    | some observation =>
      if spec.Name ≠ observation.Name then false
      else if !(IsComparablePtrEqualComparable spec.Default observation.IsDefault) then false
      else true

/-- Core of `LateInitializeQualityGate` on non-nil arguments (the Go
in-place mutation of `spec` is embedded as returning the updated
parameters). -/
def LateInitializeQualityGateCore (spec : QualityGateParameters)
    (observation : QualityGateObservation) : QualityGateParameters :=
  { spec with Default := AssignIfNil spec.Default observation.IsDefault }

def LateInitializeQualityGate (spec : Option QualityGateParameters)
    (observation : Option QualityGateObservation) : Option QualityGateParameters :=
  match spec, observation with
  | none, _ => none
  | some s, none => some s
  | some s, some o => some (LateInitializeQualityGateCore s o)

end Instance

namespace Controller

open SonarQube v1alpha1

/-- Record of remote-operation functions of `instance.QualityGatesClient`
used by the two controllers; each operation returns a value or a remote
error string. -/
structure QualityGatesClient where
  Create : QualitygatesCreateOption → Except String QualitygatesCreateObject
  SetAsDefault : QualitygatesSetAsDefaultOption → Except String Unit
  Destroy : QualitygatesDestroyOption → Except String Unit
  Rename : QualitygatesRenameOption → Except String Unit
  Show : QualitygatesShowOption → Except String QualitygatesShowObject
  CreateCondition : QualitygatesCreateConditionOption → Except String QualitygatesCreateConditionObject
  UpdateCondition : QualitygatesUpdateConditionOption → Except String Unit
  DeleteCondition : QualitygatesDeleteConditionOption → Except String Unit

/-- Trace entry for one remote call issued by a controller operation,
carrying the exact option value passed to the client. -/
inductive RemoteCall where
  | Create : QualitygatesCreateOption → RemoteCall
  | SetAsDefault : QualitygatesSetAsDefaultOption → RemoteCall
  | Destroy : QualitygatesDestroyOption → RemoteCall
  | Rename : QualitygatesRenameOption → RemoteCall
  | Show : QualitygatesShowOption → RemoteCall
  | CreateCondition : QualitygatesCreateConditionOption → RemoteCall
  | UpdateCondition : QualitygatesUpdateConditionOption → RemoteCall
  | DeleteCondition : QualitygatesDeleteConditionOption → RemoteCall
deriving DecidableEq

/-- Embedding of `errors.Wrap(err, label)` of github.com/pkg/errors: the
message of the wrapped error. -/
def errorsWrap (err label : String) : String := label ++ ": " ++ err

/-- QualityGate managed resource: ObjectMeta.Name, the crossplane
external-name (empty string when the annotation is unset, matching
`meta.GetExternalName`), Spec.ForProvider and Status.AtProvider. -/
structure QualityGate where
  Name : String
  ExternalName : String
  Spec : QualityGateParameters
  AtProvider : QualityGateObservation
deriving DecidableEq

/-- QualityGateCondition managed resource, with the same shape. -/
structure QualityGateCondition where
  Name : String
  ExternalName : String
  Spec : QualityGateConditionParameters
  AtProvider : QualityGateConditionObservation
deriving DecidableEq

/-- The three fields of `managed.ExternalObservation` the controllers
populate. -/
structure ExternalObservation where
  ResourceExists : Bool := false
  ResourceUpToDate : Bool := false
  ResourceLateInitialized : Bool := false
deriving DecidableEq

end Controller

namespace qualitygate

open SonarQube v1alpha1 Controller

def errNotQualityGate : String := "managed resource is not a QualityGate custom resource"

def errCreateQualityGate : String := "cannot create SonarQube Quality Gate"

def errDefaultQualityGate : String := "cannot set SonarQube Quality Gate as default"

def errUpdateQualityGate : String := "cannot update SonarQube Quality Gate"

def errDeleteQualityGate : String := "cannot delete SonarQube Quality Gate"

def errShowQualityGate : String := "cannot get SonarQube Quality Gate"

/-- Result of a gate controller operation: the (possibly mutated) managed
resource, the remote calls issued in order, and the returned error (none
on success). -/
structure GateResult where
  cr : QualityGate
  calls : List RemoteCall
  err : Option String
deriving DecidableEq

/-- Result of the gate Observe operation. -/
structure GateObserveResult where
  cr : QualityGate
  calls : List RemoteCall
  observation : ExternalObservation
  err : Option String
deriving DecidableEq

/-- Embedding of the gate controller's `Observe` (the typed happy path;
the `errNotQualityGate` type-assertion branch is outside this typed
embedding). -/
def Observe (client : QualityGatesClient) (cr : QualityGate) : GateObserveResult :=
  if cr.ExternalName = "" then
    { cr := cr, calls := [], observation := { ResourceExists := false }, err := none }
  else
    let opt : QualitygatesShowOption := { Name := cr.ExternalName }
    match client.Show opt with
    | .error e =>
      { cr := cr, calls := [RemoteCall.Show opt]
        observation := { ResourceExists := false }
        err := some (errorsWrap e errShowQualityGate) }
    | .ok qualityGate =>
      let atProvider := Instance.GenerateQualityGateObservation qualityGate
      let current := cr.Spec
      let newSpec := Instance.LateInitializeQualityGateCore cr.Spec atProvider
      { cr := { cr with AtProvider := atProvider, Spec := newSpec }
        calls := [RemoteCall.Show opt]
        observation :=
          { ResourceExists := true
            ResourceUpToDate := Instance.IsQualityGateUpToDate (some newSpec) (some atProvider)
            ResourceLateInitialized := decide (current ≠ newSpec) }
        err := none }

/-- Embedding of the gate controller's `Create`. -/
def Create (client : QualityGatesClient) (cr : QualityGate) : GateResult :=
  let opts := Instance.GenerateQualityGateCreateOptions cr.Spec
  match client.Create opts with
  | .error e =>
    { cr := cr, calls := [RemoteCall.Create opts]
      err := some (errorsWrap e errCreateQualityGate) }
  | .ok qualityGate =>
    let cr1 := { cr with ExternalName := qualityGate.ID }
    match cr1.Spec.Default with
    | some true =>
      let sdOpt : QualitygatesSetAsDefaultOption := { Name := cr1.Name }
      match client.SetAsDefault sdOpt with
      | .error e =>
        { cr := cr1, calls := [RemoteCall.Create opts, RemoteCall.SetAsDefault sdOpt]
          err := some (errorsWrap e errDefaultQualityGate) }
      | .ok _ =>
        { cr := cr1, calls := [RemoteCall.Create opts, RemoteCall.SetAsDefault sdOpt]
          err := none }
    | _ => { cr := cr1, calls := [RemoteCall.Create opts], err := none }

/-- Second half of the gate controller's `Update`: reassert the default
flag when requested. -/
def updateSetDefault (client : QualityGatesClient) (cr : QualityGate)
    (calls : List RemoteCall) : GateResult :=
  match cr.Spec.Default with
  | some true =>
    let sdOpt : QualitygatesSetAsDefaultOption := { Name := cr.Spec.Name }
    match client.SetAsDefault sdOpt with
    | .error e =>
      { cr := cr, calls := calls ++ [RemoteCall.SetAsDefault sdOpt]
        err := some (errorsWrap e errDefaultQualityGate) }
    | .ok _ =>
      { cr := cr, calls := calls ++ [RemoteCall.SetAsDefault sdOpt], err := none }
  | _ => { cr := cr, calls := calls, err := none }

/-- Embedding of the gate controller's `Update`. -/
def Update (client : QualityGatesClient) (cr : QualityGate) : GateResult :=
  if cr.ExternalName = "" then
    { cr := cr, calls := []
      err := some ("external name is not set for Quality Gate " ++ cr.Name) }
  else if cr.Spec.Name ≠ cr.ExternalName then
    let rOpt : QualitygatesRenameOption := { CurrentName := cr.ExternalName, Name := cr.Spec.Name }
    match client.Rename rOpt with
    | .error e =>
      { cr := cr, calls := [RemoteCall.Rename rOpt]
        err := some (errorsWrap e errUpdateQualityGate) }
    | .ok _ =>
      updateSetDefault client { cr with ExternalName := cr.Spec.Name } [RemoteCall.Rename rOpt]
  else
    updateSetDefault client cr []

/-- Embedding of the gate controller's `Delete`. The destroy option is
built from `cr.Name` exactly as in the source. -/
def Delete (client : QualityGatesClient) (cr : QualityGate) : GateResult :=
  if cr.ExternalName = "" then
    { cr := cr, calls := [], err := none }
  else
    let dOpt : QualitygatesDestroyOption := { Name := cr.Name }
    match client.Destroy dOpt with
    | .error e =>
      { cr := cr, calls := [RemoteCall.Destroy dOpt]
        err := some (errorsWrap e errDeleteQualityGate) }
    | .ok _ =>
      { cr := cr, calls := [RemoteCall.Destroy dOpt], err := none }

end qualitygate

namespace qualitygatecondition

open SonarQube v1alpha1 Controller

def errNotQualityGateCondition : String :=
  "managed resource is not a QualityGateCondition custom resource"

def errCreateQualityGateCondition : String := "cannot create SonarQube Quality Gate Condition"

def errUpdateQualityGateCondition : String := "cannot update SonarQube Quality Gate Condition"

def errDeleteQualityGateCondition : String := "cannot delete SonarQube Quality Gate Condition"

def errShowQualityGateCondition : String := "cannot get SonarQube Quality Gate Condition"

/-- Result of a condition controller operation (Update/Delete). -/
structure CondResult where
  cr : QualityGateCondition
  calls : List RemoteCall
  err : Option String
deriving DecidableEq

/-- Result of the condition Observe operation. -/
structure CondObserveResult where
  cr : QualityGateCondition
  calls : List RemoteCall
  observation : ExternalObservation
  err : Option String
deriving DecidableEq

/-- Outcome of the condition Create operation: normal return, error
return, or a Go runtime panic (raised when building the create payload
dereferences a nil `QualityGateName`). -/
inductive CondCreateOutcome where
  | ok : CondCreateOutcome
  | err : String → CondCreateOutcome
  | panicked : String → CondCreateOutcome
deriving DecidableEq

def nilPointerDereferenceMsg : String :=
  "runtime error: invalid memory address or nil pointer dereference"

/-- Result of the condition Create operation. -/
structure CondCreateResult where
  cr : QualityGateCondition
  calls : List RemoteCall
  outcome : CondCreateOutcome
deriving DecidableEq

/-- Embedding of the condition controller's `Observe`: look up the gate
named by the condition's external name, then search its condition list
for that id. -/
def Observe (client : QualityGatesClient) (cr : QualityGateCondition) : CondObserveResult :=
  if cr.ExternalName = "" then
    { cr := cr, calls := [], observation := { ResourceExists := false }, err := none }
  else
    let opt : QualitygatesShowOption := { Name := cr.ExternalName }
    match client.Show opt with
    | .error e =>
      { cr := cr, calls := [RemoteCall.Show opt]
        observation := { ResourceExists := false }
        err := some (Controller.errorsWrap e errShowQualityGateCondition) }
    | .ok qualityGate =>
      match Instance.FindQualityGateConditionObservation cr.ExternalName qualityGate.Conditions with
      | .error e =>
        { cr := cr, calls := [RemoteCall.Show opt]
          observation := { ResourceExists := false }
          err := some (Controller.errorsWrap e errShowQualityGateCondition) }
      | .ok observation =>
        let current := cr.Spec
        let newSpec := Instance.LateInitializeQualityGateConditionCore cr.Spec observation
        { cr := { cr with AtProvider := observation, Spec := newSpec }
          calls := [RemoteCall.Show opt]
          observation :=
            { ResourceExists := true
              ResourceUpToDate :=
                Instance.IsQualityGateConditionUpToDate (some newSpec) (some observation)
              ResourceLateInitialized := decide (current ≠ newSpec) }
          err := none }

/-- Embedding of the condition controller's `Create`; the nil-pointer
dereference inside `GenerateCreateQualityGateConditionOption` surfaces
as the `panicked` outcome, before any remote call is made. -/
def Create (client : QualityGatesClient) (cr : QualityGateCondition) : CondCreateResult :=
  match Instance.GenerateCreateQualityGateConditionOption cr.Spec with
  | none =>
    { cr := cr, calls := [], outcome := .panicked nilPointerDereferenceMsg }
  | some opts =>
    match client.CreateCondition opts with
    | .error e =>
      { cr := cr, calls := [RemoteCall.CreateCondition opts]
        outcome := .err (Controller.errorsWrap e errCreateQualityGateCondition) }
    | .ok obj =>
      { cr := { cr with ExternalName := obj.ID }
        calls := [RemoteCall.CreateCondition opts]
        outcome := .ok }

/-- Embedding of the condition controller's `Update`. -/
def Update (client : QualityGatesClient) (cr : QualityGateCondition) : CondResult :=
  if cr.ExternalName = "" then
    { cr := cr, calls := []
      err := some ("external name is not set for Quality Gate Condition " ++ cr.Name) }
  else
    let opts := Instance.GenerateUpdateQualityGateConditionOption cr.ExternalName cr.Spec
    match client.UpdateCondition opts with
    | .error e =>
      { cr := cr, calls := [RemoteCall.UpdateCondition opts]
        err := some (Controller.errorsWrap e errUpdateQualityGateCondition) }
    | .ok _ =>
      { cr := cr, calls := [RemoteCall.UpdateCondition opts], err := none }

/-- Embedding of the condition controller's `Delete`. -/
def Delete (client : QualityGatesClient) (cr : QualityGateCondition) : CondResult :=
  if cr.ExternalName = "" then
    { cr := cr, calls := [], err := none }
  else
    let opts := Instance.GenerateDeleteQualityGateConditionOption cr.ExternalName
    match client.DeleteCondition opts with
    | .error e =>
      { cr := cr, calls := [RemoteCall.DeleteCondition opts]
        err := some (Controller.errorsWrap e errDeleteQualityGateCondition) }
    | .ok _ =>
      { cr := cr, calls := [RemoteCall.DeleteCondition opts], err := none }

end qualitygatecondition

namespace Fixtures

open SonarQube v1alpha1 Controller

/-- All-false permitted-actions record, for concrete fixtures. -/
def noActions : QualitygatesShowObject_sub1 :=
  { AssociateProjects := false, Copy := false, Delegate := false, Delete := false
    ManageAiCodeAssurance := false, ManageConditions := false, Rename := false
    SetAsDefault := false }

/-- Concrete remote gate with an empty condition list. -/
def emptyGateShow : QualitygatesShowObject :=
  { Actions := noActions, CaycStatus := "compliant", Conditions := []
    IsAiCodeSupported := false, IsBuiltIn := false, IsDefault := true, Name := "test-gate" }

/-- Zero-valued observed gate state, for initial status fields. -/
def zeroGateObservation : QualityGateObservation :=
  { Actions := { AssociateProjects := false, Copy := false, Delegate := false, Delete := false
                 ManageAiCodeAssurance := false, ManageConditions := false, Rename := false
                 SetAsDefault := false }
    CaycStatus := "", Conditions := [], IsAiCodeSupported := false, IsBuiltIn := false
    IsDefault := false, Name := "" }

/-- Zero-valued observed condition state, for initial status fields. -/
def zeroCondObservation : QualityGateConditionObservation :=
  { Error := "", ID := "", Metric := "", Op := "" }

/-- Client whose gate create succeeds with remote identity "gate-123" and
remote display name echoing the requested name, and whose SetAsDefault
succeeds; every other operation fails. -/
def clientCreateOk : QualityGatesClient :=
  { Create := fun opt => .ok { ID := "gate-123", Name := opt.Name }
    SetAsDefault := fun _ => .ok ()
    Destroy := fun _ => .error "unused"
    Rename := fun _ => .error "unused"
    Show := fun _ => .error "unused"
    CreateCondition := fun _ => .ok { ID := "cond-77" }
    UpdateCondition := fun _ => .error "unused"
    DeleteCondition := fun _ => .error "unused" }

/-- Client whose every operation fails with "remote error". -/
def clientAllFail : QualityGatesClient :=
  { Create := fun _ => .error "remote error"
    SetAsDefault := fun _ => .error "remote error"
    Destroy := fun _ => .error "remote error"
    Rename := fun _ => .error "remote error"
    Show := fun _ => .error "remote error"
    CreateCondition := fun _ => .error "remote error"
    UpdateCondition := fun _ => .error "remote error"
    DeleteCondition := fun _ => .error "remote error" }

/-- Client whose every operation succeeds (create operations return fixed
remote identities, lookups return the empty fixture gate). -/
def clientAllOk : QualityGatesClient :=
  { Create := fun opt => .ok { ID := "gate-123", Name := opt.Name }
    SetAsDefault := fun _ => .ok ()
    Destroy := fun _ => .ok ()
    Rename := fun _ => .ok ()
    Show := fun _ => .ok emptyGateShow
    CreateCondition := fun _ => .ok { ID := "cond-77" }
    UpdateCondition := fun _ => .ok ()
    DeleteCondition := fun _ => .ok () }

/-- Gate managed resource whose local Kubernetes name, desired gate name
and remote identity are pairwise distinct. -/
def gateLocalRemote : QualityGate :=
  { Name := "local-gate", ExternalName := "gate-123"
    Spec := { Name := "remote-gate", Default := some true }
    AtProvider := zeroGateObservation }

/-- Gate managed resource not yet created remotely (empty external name),
requesting default status. -/
def gateUncreated : QualityGate :=
  { Name := "local-gate", ExternalName := ""
    Spec := { Name := "remote-gate", Default := some true }
    AtProvider := zeroGateObservation }

/-- Condition managed resource with a resolved parent gate name and a
remote identity. -/
def condTracked : QualityGateCondition :=
  { Name := "local-cond", ExternalName := "cond-1"
    Spec := { QualityGateName := some "test-gate", QualityGateRef := none
              QualityGateSelector := none, Error := "80", Metric := "coverage"
              Op := some "LT" }
    AtProvider := zeroCondObservation }

/-- Condition managed resource never created remotely, with a nil parent
gate name. -/
def condNilGateName : QualityGateCondition :=
  { Name := "local-cond", ExternalName := ""
    Spec := { QualityGateName := none, QualityGateRef := none
              QualityGateSelector := none, Error := "80", Metric := "coverage"
              Op := some "LT" }
    AtProvider := zeroCondObservation }

end Fixtures

/-! Helper lemmas shared by several claim proofs. -/

theorem isComparablePtrEqualComparable_iff {α : Type} [DecidableEq α] (p : Option α) (v : α) :
    Helpers.IsComparablePtrEqualComparable p v = true ↔ ∀ w, p = some w → w = v := by
  cases p with
  | none => simp [Helpers.IsComparablePtrEqualComparable]
  | some w => simp [Helpers.IsComparablePtrEqualComparable]

theorem gateUpToDate_some_some_iff (d : v1alpha1.QualityGateParameters)
    (o : v1alpha1.QualityGateObservation) :
    Instance.IsQualityGateUpToDate (some d) (some o) = true ↔
      (d.Name = o.Name ∧ ∀ b, d.Default = some b → b = o.IsDefault) := by
  cases hd : d.Default with
  | none =>
    by_cases hn : d.Name = o.Name <;>
      simp [Instance.IsQualityGateUpToDate, Helpers.IsComparablePtrEqualComparable, hd, hn]
  | some b =>
    by_cases hn : d.Name = o.Name <;> by_cases hb : b = o.IsDefault <;>
      simp [Instance.IsQualityGateUpToDate, Helpers.IsComparablePtrEqualComparable, hd, hn, hb]

theorem condUpToDate_some_some_iff (dc : v1alpha1.QualityGateConditionParameters)
    (oc : v1alpha1.QualityGateConditionObservation) :
    Instance.IsQualityGateConditionUpToDate (some dc) (some oc) = true ↔
      (dc.Error = oc.Error ∧ dc.Metric = oc.Metric ∧ ∀ s, dc.Op = some s → s = oc.Op) := by
  cases hd : dc.Op with
  | none =>
    by_cases he : dc.Error = oc.Error <;> by_cases hm : dc.Metric = oc.Metric <;>
      simp [Instance.IsQualityGateConditionUpToDate, Helpers.IsComparablePtrEqualComparable,
            hd, he, hm]
  | some s =>
    by_cases he : dc.Error = oc.Error <;> by_cases hm : dc.Metric = oc.Metric <;>
        by_cases hs : s = oc.Op <;>
      simp [Instance.IsQualityGateConditionUpToDate, Helpers.IsComparablePtrEqualComparable,
            hd, he, hm, hs]

/-- C5: for both entity kinds the up-to-date comparator returns true on a
nil desired specification, false on a non-nil desired specification with
a nil observed state, and otherwise true exactly when every set desired
field equals its observed counterpart (required string fields by strict
equality, a set optional field against the observed literal, an unset
optional field always matching). -/
theorem c5_up_to_date_comparators (d : v1alpha1.QualityGateParameters)
    (o : v1alpha1.QualityGateObservation)
    (dc : v1alpha1.QualityGateConditionParameters)
    (oc : v1alpha1.QualityGateConditionObservation) :
    Instance.IsQualityGateUpToDate none (some o) = true ∧
    Instance.IsQualityGateUpToDate (some d) none = false ∧
    (Instance.IsQualityGateUpToDate (some d) (some o) = true ↔
      (d.Name = o.Name ∧ ∀ b, d.Default = some b → b = o.IsDefault)) ∧
    Instance.IsQualityGateConditionUpToDate none (some oc) = true ∧
    Instance.IsQualityGateConditionUpToDate (some dc) none = false ∧
    (Instance.IsQualityGateConditionUpToDate (some dc) (some oc) = true ↔
      (dc.Error = oc.Error ∧ dc.Metric = oc.Metric ∧ ∀ s, dc.Op = some s → s = oc.Op)) :=
  ⟨rfl, rfl, gateUpToDate_some_some_iff d o, rfl, rfl, condUpToDate_some_some_iff dc oc⟩

/-- C5 witness: the comparator evaluated at the concrete desired/observed
pairs of the repository's own test data. -/
theorem c5_witness :
    Instance.IsQualityGateUpToDate none
        (some { Fixtures.zeroGateObservation with Name := "test" }) = true ∧
    Instance.IsQualityGateUpToDate (some { Name := "test", Default := some true }) none = false ∧
    (Instance.IsQualityGateUpToDate (some { Name := "test", Default := some true })
        (some { Fixtures.zeroGateObservation with Name := "test" }) = true ↔
      (("test" : String) = "test" ∧
        ∀ b, (some true : Option Bool) = some b → b = Fixtures.zeroGateObservation.IsDefault)) ∧
    Instance.IsQualityGateConditionUpToDate none (some Fixtures.zeroCondObservation) = true ∧
    Instance.IsQualityGateConditionUpToDate (some Fixtures.condTracked.Spec) none = false ∧
    (Instance.IsQualityGateConditionUpToDate (some Fixtures.condTracked.Spec)
        (some Fixtures.zeroCondObservation) = true ↔
      (Fixtures.condTracked.Spec.Error = Fixtures.zeroCondObservation.Error ∧
        Fixtures.condTracked.Spec.Metric = Fixtures.zeroCondObservation.Metric ∧
        ∀ s, Fixtures.condTracked.Spec.Op = some s → s = Fixtures.zeroCondObservation.Op)) :=
  c5_up_to_date_comparators { Name := "test", Default := some true }
    { Fixtures.zeroGateObservation with Name := "test" }
    Fixtures.condTracked.Spec Fixtures.zeroCondObservation

/-- C6: late initialization never changes an already-set optional field
(the gate Default, the condition Op), and is a no-op when either argument
is nil. -/
theorem c6_late_init_preserves_set_fields (d : v1alpha1.QualityGateParameters)
    (o : Option v1alpha1.QualityGateObservation) (v : Bool)
    (dc : v1alpha1.QualityGateConditionParameters)
    (oc : Option v1alpha1.QualityGateConditionObservation) (s : String)
    (hv : d.Default = some v) (hs : dc.Op = some s) :
    (Instance.LateInitializeQualityGate (some d) o).map
        v1alpha1.QualityGateParameters.Default = some (some v) ∧
    Instance.LateInitializeQualityGate none o = none ∧
    Instance.LateInitializeQualityGate (some d) none = some d ∧
    (Instance.LateInitializeQualityGateCondition (some dc) oc).map
        v1alpha1.QualityGateConditionParameters.Op = some (some s) ∧
    Instance.LateInitializeQualityGateCondition none oc = none ∧
    Instance.LateInitializeQualityGateCondition (some dc) none = some dc := by
  refine ⟨?_, ?_, rfl, ?_, ?_, rfl⟩
  · cases o <;>
      simp [Instance.LateInitializeQualityGate, Instance.LateInitializeQualityGateCore,
            Helpers.AssignIfNil, hv]
  · cases o <;> simp [Instance.LateInitializeQualityGate]
  · cases oc <;>
      simp [Instance.LateInitializeQualityGateCondition,
            Instance.LateInitializeQualityGateConditionCore, Helpers.AssignIfNil, hs]
  · cases oc <;> simp [Instance.LateInitializeQualityGateCondition]

/-- C6 witness: a gate spec with Default already set to false keeps it
against an observed default of true, and a condition spec with Op "LT"
keeps it against an observed "GT". -/
theorem c6_witness :
    (({ Name := "test", Default := some false } : v1alpha1.QualityGateParameters).Default
        = some false) ∧
    (Fixtures.condTracked.Spec.Op = some "LT") ∧
    ((Instance.LateInitializeQualityGate (some { Name := "test", Default := some false })
        (some { Fixtures.zeroGateObservation with IsDefault := true })).map
        v1alpha1.QualityGateParameters.Default = some (some false) ∧
      Instance.LateInitializeQualityGate none
        (some { Fixtures.zeroGateObservation with IsDefault := true }) = none ∧
      Instance.LateInitializeQualityGate
        (some { Name := "test", Default := some false }) none =
          some { Name := "test", Default := some false } ∧
      (Instance.LateInitializeQualityGateCondition (some Fixtures.condTracked.Spec)
        (some { Fixtures.zeroCondObservation with Op := "GT" })).map
        v1alpha1.QualityGateConditionParameters.Op = some (some "LT") ∧
      Instance.LateInitializeQualityGateCondition none
        (some { Fixtures.zeroCondObservation with Op := "GT" }) = none ∧
      Instance.LateInitializeQualityGateCondition (some Fixtures.condTracked.Spec) none =
        some Fixtures.condTracked.Spec) :=
  ⟨rfl, rfl,
    c6_late_init_preserves_set_fields { Name := "test", Default := some false }
      (some { Fixtures.zeroGateObservation with IsDefault := true }) false
      Fixtures.condTracked.Spec
      (some { Fixtures.zeroCondObservation with Op := "GT" }) "LT" rfl rfl⟩

/-- C9: late initialization mutates at most one field per entity kind:
every field of the gate parameters other than Default, and every field of
the condition parameters other than Op, is returned unchanged for every
input pair (including nil inputs). -/
theorem c9_late_init_frame (p : Option v1alpha1.QualityGateParameters)
    (o : Option v1alpha1.QualityGateObservation)
    (pc : Option v1alpha1.QualityGateConditionParameters)
    (oc : Option v1alpha1.QualityGateConditionObservation) :
    (Instance.LateInitializeQualityGate p o).map v1alpha1.QualityGateParameters.Name =
      p.map v1alpha1.QualityGateParameters.Name ∧
    (Instance.LateInitializeQualityGateCondition pc oc).map
        v1alpha1.QualityGateConditionParameters.QualityGateName =
      pc.map v1alpha1.QualityGateConditionParameters.QualityGateName ∧
    (Instance.LateInitializeQualityGateCondition pc oc).map
        v1alpha1.QualityGateConditionParameters.QualityGateRef =
      pc.map v1alpha1.QualityGateConditionParameters.QualityGateRef ∧
    (Instance.LateInitializeQualityGateCondition pc oc).map
        v1alpha1.QualityGateConditionParameters.QualityGateSelector =
      pc.map v1alpha1.QualityGateConditionParameters.QualityGateSelector ∧
    (Instance.LateInitializeQualityGateCondition pc oc).map
        v1alpha1.QualityGateConditionParameters.Error =
      pc.map v1alpha1.QualityGateConditionParameters.Error ∧
    (Instance.LateInitializeQualityGateCondition pc oc).map
        v1alpha1.QualityGateConditionParameters.Metric =
      pc.map v1alpha1.QualityGateConditionParameters.Metric := by
  cases p <;> cases o <;> cases pc <;> cases oc <;>
    simp [Instance.LateInitializeQualityGate, Instance.LateInitializeQualityGateCore,
          Instance.LateInitializeQualityGateCondition,
          Instance.LateInitializeQualityGateConditionCore]

/-- C10: FindQualityGateConditionObservation returns the mapped
observation of the first element (in list order) whose ID equals the
searched id, and returns the not-found error exactly when no element
matches, including on the empty list. -/
theorem c10_find_condition_by_id (id : String) (l : List SonarQube.QualitygatesShowObject_sub2) :
    (∀ c, l.find? (fun x => decide (x.ID = id)) = some c →
      Instance.FindQualityGateConditionObservation id l =
        .ok (Instance.GenerateQualityGateConditionObservation c)) ∧
    (Instance.FindQualityGateConditionObservation id l =
        .error Instance.notFoundConditionMsg ↔ ∀ x ∈ l, x.ID ≠ id) := by
  induction l with
  | nil => simp [Instance.FindQualityGateConditionObservation]
  | cons hd tl ih =>
    constructor
    · intro c hc
      by_cases h : hd.ID = id
      · rw [List.find?_cons_of_pos _ (by simpa using h)] at hc
        cases hc
        simp [Instance.FindQualityGateConditionObservation, h]
      · rw [List.find?_cons_of_neg _ (by simpa using h)] at hc
        simpa [Instance.FindQualityGateConditionObservation, h] using ih.1 c hc
    · by_cases h : hd.ID = id
      · simp [Instance.FindQualityGateConditionObservation, h]
      · simp [Instance.FindQualityGateConditionObservation, h, ih.2]

/-- C10 witness: the searcher on a two-element list with duplicate ids
returns the first element's mapped observation, and on the empty list
returns the not-found error. -/
theorem c10_witness :
    (∀ c, [({ Error := "80", ID := "cond-1", Metric := "coverage", Op := "LT" } :
              SonarQube.QualitygatesShowObject_sub2),
           { Error := "90", ID := "cond-1", Metric := "bugs", Op := "GT" }].find?
        (fun x => decide (x.ID = "cond-1")) = some c →
      Instance.FindQualityGateConditionObservation "cond-1"
          [{ Error := "80", ID := "cond-1", Metric := "coverage", Op := "LT" },
           { Error := "90", ID := "cond-1", Metric := "bugs", Op := "GT" }] =
        .ok (Instance.GenerateQualityGateConditionObservation c)) ∧
    (Instance.FindQualityGateConditionObservation "cond-1"
        [{ Error := "80", ID := "cond-1", Metric := "coverage", Op := "LT" },
         { Error := "90", ID := "cond-1", Metric := "bugs", Op := "GT" }] =
        .error Instance.notFoundConditionMsg ↔
      ∀ x ∈ [({ Error := "80", ID := "cond-1", Metric := "coverage", Op := "LT" } :
                SonarQube.QualitygatesShowObject_sub2),
             { Error := "90", ID := "cond-1", Metric := "bugs", Op := "GT" }], x.ID ≠ "cond-1") :=
  c10_find_condition_by_id "cond-1"
    [{ Error := "80", ID := "cond-1", Metric := "coverage", Op := "LT" },
     { Error := "90", ID := "cond-1", Metric := "bugs", Op := "GT" }]

/-- C7: for both entity kinds, Update with an empty external identity
fails with the precondition error naming the local resource, issues no
remote call, and leaves the resource unchanged. -/
theorem c7_update_requires_external_identity (client : Controller.QualityGatesClient)
    (g : Controller.QualityGate) (c : Controller.QualityGateCondition)
    (hg : g.ExternalName = "") (hc : c.ExternalName = "") :
    qualitygate.Update client g =
      { cr := g, calls := []
        err := some ("external name is not set for Quality Gate " ++ g.Name) } ∧
    qualitygatecondition.Update client c =
      { cr := c, calls := []
        err := some ("external name is not set for Quality Gate Condition " ++ c.Name) } := by
  constructor
  · simp [qualitygate.Update, hg]
  · simp [qualitygatecondition.Update, hc]

/-- C7 witness: Update of the never-created fixtures fails with the
precondition error and an empty call trace even against a client whose
remote operations would all succeed. -/
theorem c7_witness :
    Fixtures.gateUncreated.ExternalName = "" ∧
    Fixtures.condNilGateName.ExternalName = "" ∧
    (qualitygate.Update Fixtures.clientAllOk Fixtures.gateUncreated =
      { cr := Fixtures.gateUncreated, calls := []
        err := some ("external name is not set for Quality Gate " ++
          Fixtures.gateUncreated.Name) } ∧
    qualitygatecondition.Update Fixtures.clientAllOk Fixtures.condNilGateName =
      { cr := Fixtures.condNilGateName, calls := []
        err := some ("external name is not set for Quality Gate Condition " ++
          Fixtures.condNilGateName.Name) }) :=
  ⟨rfl, rfl,
    c7_update_requires_external_identity Fixtures.clientAllOk Fixtures.gateUncreated
      Fixtures.condNilGateName rfl rfl⟩

/-- C8: building the condition create payload dereferences the desired
QualityGateName unconditionally, so Create on a condition with a nil
parent gate name hits the nil-pointer panic before any remote call; with
the parent gate name set, Create never panics. -/
theorem c8_create_panics_without_gate_name (client : Controller.QualityGatesClient)
    (cr : Controller.QualityGateCondition) :
    (cr.Spec.QualityGateName = none →
      Instance.GenerateCreateQualityGateConditionOption cr.Spec = none ∧
      qualitygatecondition.Create client cr =
        { cr := cr, calls := []
          outcome := .panicked qualitygatecondition.nilPointerDereferenceMsg }) ∧
    (∀ gn, cr.Spec.QualityGateName = some gn →
      ∀ m, (qualitygatecondition.Create client cr).outcome ≠ .panicked m) := by
  constructor
  · intro h
    refine ⟨?_, ?_⟩
    · simp [Instance.GenerateCreateQualityGateConditionOption, h]
    · simp [qualitygatecondition.Create, Instance.GenerateCreateQualityGateConditionOption, h]
  · intro gn hgn m
    have hopt : Instance.GenerateCreateQualityGateConditionOption cr.Spec =
        some { GateName := gn, Error := cr.Spec.Error, Metric := cr.Spec.Metric
               Op := match cr.Spec.Op with
                     | some op => op
                     | none => "" } := by
      simp [Instance.GenerateCreateQualityGateConditionOption, hgn]
    simp only [qualitygatecondition.Create, hopt]
    cases client.CreateCondition _ <;> simp

/-- C8 witness: the fixture condition with a nil parent gate name panics
without any remote call, while the tracked fixture (parent gate name set)
does not panic. -/
theorem c8_witness :
    Fixtures.condNilGateName.Spec.QualityGateName = none ∧
    Fixtures.condTracked.Spec.QualityGateName = some "test-gate" ∧
    ((Instance.GenerateCreateQualityGateConditionOption Fixtures.condNilGateName.Spec = none ∧
      qualitygatecondition.Create Fixtures.clientAllOk Fixtures.condNilGateName =
        { cr := Fixtures.condNilGateName, calls := []
          outcome := .panicked qualitygatecondition.nilPointerDereferenceMsg }) ∧
      ∀ m, (qualitygatecondition.Create Fixtures.clientAllOk
        Fixtures.condTracked).outcome ≠ .panicked m) :=
  ⟨rfl, rfl,
    (c8_create_panics_without_gate_name Fixtures.clientAllOk Fixtures.condNilGateName).1 rfl,
    (c8_create_panics_without_gate_name Fixtures.clientAllOk Fixtures.condTracked).2
      "test-gate" rfl⟩

/-- C1 counterexample: with a remote create returning identity "gate-123"
and display name "remote-gate", the subsequent SetAsDefault call carries
the local Kubernetes resource name "local-gate", which differs from both
remote-returned values. -/
theorem c1_counterexample :
    (qualitygate.Create Fixtures.clientCreateOk
        { Fixtures.gateUncreated with Name := "local-gate" }).calls =
      [Controller.RemoteCall.Create { Name := "remote-gate" },
       Controller.RemoteCall.SetAsDefault { Name := "local-gate" }] ∧
    (qualitygate.Create Fixtures.clientCreateOk
        { Fixtures.gateUncreated with Name := "local-gate" }).cr.ExternalName = "gate-123" ∧
    ("local-gate" : String) ≠ "gate-123" ∧ ("local-gate" : String) ≠ "remote-gate" :=
  ⟨rfl, rfl, by decide, by decide⟩

/-- C1 (amended): when the desired specification requests default status
and the remote create succeeds, the gate controller's Create issues a
SetAsDefault call whose Name argument is the LOCAL Kubernetes resource
name; if that call fails the overall Create returns the error wrapped
with the default-specific label while the creation itself (and the
external name set from the create response) is preserved. -/
theorem c1_create_set_default_behaviour (client : Controller.QualityGatesClient)
    (cr : Controller.QualityGate) (obj : SonarQube.QualitygatesCreateObject)
    (hdef : cr.Spec.Default = some true)
    (hcreate : client.Create (Instance.GenerateQualityGateCreateOptions cr.Spec) = .ok obj) :
    (qualitygate.Create client cr).cr.ExternalName = obj.ID ∧
    (qualitygate.Create client cr).calls =
      [Controller.RemoteCall.Create (Instance.GenerateQualityGateCreateOptions cr.Spec),
       Controller.RemoteCall.SetAsDefault { Name := cr.Name }] ∧
    (∀ e, client.SetAsDefault { Name := cr.Name } = .error e →
      (qualitygate.Create client cr).err =
        some (Controller.errorsWrap e qualitygate.errDefaultQualityGate)) ∧
    (client.SetAsDefault { Name := cr.Name } = .ok () →
      (qualitygate.Create client cr).err = none) := by
  have hspec : ({ cr with ExternalName := obj.ID } : Controller.QualityGate).Spec.Default =
      some true := hdef
  cases hsd : client.SetAsDefault { Name := cr.Name } with
  | error e =>
    refine ⟨?_, ?_, ?_, ?_⟩ <;>
      simp_all [qualitygate.Create, hcreate, hspec, hsd]
  | ok u =>
    refine ⟨?_, ?_, ?_, ?_⟩ <;>
      simp_all [qualitygate.Create, hcreate, hspec, hsd]

/-- C1 witness: the amended behaviour evaluated on the concrete fixture
client whose create succeeds with identity "gate-123" and whose
SetAsDefault succeeds. -/
theorem c1_witness :
    Fixtures.gateUncreated.Spec.Default = some true ∧
    Fixtures.clientCreateOk.Create
        (Instance.GenerateQualityGateCreateOptions Fixtures.gateUncreated.Spec) =
      .ok { ID := "gate-123", Name := "remote-gate" } ∧
    ((qualitygate.Create Fixtures.clientCreateOk Fixtures.gateUncreated).cr.ExternalName =
        "gate-123" ∧
      (qualitygate.Create Fixtures.clientCreateOk Fixtures.gateUncreated).calls =
        [Controller.RemoteCall.Create
            (Instance.GenerateQualityGateCreateOptions Fixtures.gateUncreated.Spec),
         Controller.RemoteCall.SetAsDefault { Name := Fixtures.gateUncreated.Name }] ∧
      (∀ e, Fixtures.clientCreateOk.SetAsDefault
          { Name := Fixtures.gateUncreated.Name } = .error e →
        (qualitygate.Create Fixtures.clientCreateOk Fixtures.gateUncreated).err =
          some (Controller.errorsWrap e qualitygate.errDefaultQualityGate)) ∧
      (Fixtures.clientCreateOk.SetAsDefault { Name := Fixtures.gateUncreated.Name } = .ok () →
        (qualitygate.Create Fixtures.clientCreateOk Fixtures.gateUncreated).err = none)) :=
  ⟨rfl, rfl,
    c1_create_set_default_behaviour Fixtures.clientCreateOk Fixtures.gateUncreated
      { ID := "gate-123", Name := "remote-gate" } rfl rfl⟩

/-- C2 counterexample: the gate Delete of a resource whose local name
"local-gate" differs from its external identity "gate-123" issues the
Destroy call keyed by the local name, not by the external identity. -/
theorem c2_counterexample :
    (qualitygate.Delete Fixtures.clientAllOk Fixtures.gateLocalRemote).calls =
      [Controller.RemoteCall.Destroy { Name := "local-gate" }] ∧
    Fixtures.gateLocalRemote.ExternalName = "gate-123" ∧
    ("local-gate" : String) ≠ "gate-123" :=
  ⟨rfl, rfl, by decide⟩

/-- C2 (amended): Delete is a no-op success when the external identity is
empty; otherwise the gate issues Destroy keyed by the LOCAL resource name
(only the emptiness check uses the external identity) while the condition
issues the delete-condition call keyed by the external identity; on
remote failure the wrapped error is returned and the resource, in
particular its external identity, is unchanged. -/
theorem c2_delete_behaviour (client : Controller.QualityGatesClient)
    (g : Controller.QualityGate) (c : Controller.QualityGateCondition) :
    (g.ExternalName = "" → qualitygate.Delete client g = { cr := g, calls := [], err := none }) ∧
    (c.ExternalName = "" →
      qualitygatecondition.Delete client c = { cr := c, calls := [], err := none }) ∧
    (g.ExternalName ≠ "" →
      (qualitygate.Delete client g).calls = [Controller.RemoteCall.Destroy { Name := g.Name }] ∧
      (qualitygate.Delete client g).cr = g ∧
      ∀ e, client.Destroy { Name := g.Name } = .error e →
        (qualitygate.Delete client g).err =
          some (Controller.errorsWrap e qualitygate.errDeleteQualityGate)) ∧
    (c.ExternalName ≠ "" →
      (qualitygatecondition.Delete client c).calls =
        [Controller.RemoteCall.DeleteCondition { Id := c.ExternalName }] ∧
      (qualitygatecondition.Delete client c).cr = c ∧
      ∀ e, client.DeleteCondition { Id := c.ExternalName } = .error e →
        (qualitygatecondition.Delete client c).err =
          some (Controller.errorsWrap e qualitygatecondition.errDeleteQualityGateCondition)) := by
  refine ⟨?_, ?_, ?_, ?_⟩
  · intro h
    simp [qualitygate.Delete, h]
  · intro h
    simp [qualitygatecondition.Delete, h]
  · intro h
    cases hd : client.Destroy { Name := g.Name } with
    | error e => refine ⟨?_, ?_, ?_⟩ <;> simp_all [qualitygate.Delete, h, hd]
    | ok u => refine ⟨?_, ?_, ?_⟩ <;> simp_all [qualitygate.Delete, h, hd]
  · intro h
    cases hd : client.DeleteCondition { Id := c.ExternalName } with
    | error e =>
      refine ⟨?_, ?_, ?_⟩ <;>
        simp_all [qualitygatecondition.Delete,
          Instance.GenerateDeleteQualityGateConditionOption, h, hd]
    | ok u =>
      refine ⟨?_, ?_, ?_⟩ <;>
        simp_all [qualitygatecondition.Delete,
          Instance.GenerateDeleteQualityGateConditionOption, h, hd]

/-- C2 witness: the amended Delete behaviour evaluated on the tracked
fixtures against the client whose every remote operation fails, showing
the wrapped errors and the untouched resources. -/
theorem c2_witness :
    Fixtures.gateLocalRemote.ExternalName ≠ "" ∧
    Fixtures.condTracked.ExternalName ≠ "" ∧
    Fixtures.clientAllFail.Destroy { Name := Fixtures.gateLocalRemote.Name } =
      .error "remote error" ∧
    Fixtures.clientAllFail.DeleteCondition { Id := Fixtures.condTracked.ExternalName } =
      .error "remote error" ∧
    (qualitygate.Delete Fixtures.clientAllFail Fixtures.gateLocalRemote).err =
      some (Controller.errorsWrap "remote error" qualitygate.errDeleteQualityGate) ∧
    (qualitygatecondition.Delete Fixtures.clientAllFail Fixtures.condTracked).err =
      some (Controller.errorsWrap "remote error"
        qualitygatecondition.errDeleteQualityGateCondition) :=
  ⟨by decide, by decide, rfl, rfl,
    ((c2_delete_behaviour Fixtures.clientAllFail Fixtures.gateLocalRemote
        Fixtures.condTracked).2.2.1 (by decide)).2.2 "remote error" rfl,
    ((c2_delete_behaviour Fixtures.clientAllFail Fixtures.gateLocalRemote
        Fixtures.condTracked).2.2.2 (by decide)).2.2 "remote error" rfl⟩

/-- C3 counterexample: Observe of the tracked condition against a client
whose gate lookup succeeds but whose condition list no longer contains
the condition's id reports the resource as not existing AND returns the
wrapped not-found error — the failure IS surfaced to the caller. -/
theorem c3_counterexample :
    (qualitygatecondition.Observe Fixtures.clientAllOk
        Fixtures.condTracked).observation.ResourceExists = false ∧
    (qualitygatecondition.Observe Fixtures.clientAllOk Fixtures.condTracked).err =
      some (Controller.errorsWrap Instance.notFoundConditionMsg
        qualitygatecondition.errShowQualityGateCondition) ∧
    (qualitygatecondition.Observe Fixtures.clientAllOk Fixtures.condTracked).err ≠ none :=
  ⟨rfl, rfl, by decide⟩

/-- C3 (amended): for every entity with a non-empty external identity,
when the remote lookup fails (including, for conditions, the observation
mapper failing to locate the condition's id in the parent gate's
condition list), Observe reports the resource as not existing AND returns
the failure wrapped with the show-specific label — the error is
surfaced, not swallowed. -/
theorem c3_observe_surfaces_lookup_failure (client : Controller.QualityGatesClient)
    (g : Controller.QualityGate) (c : Controller.QualityGateCondition)
    (hg : g.ExternalName ≠ "") (hc : c.ExternalName ≠ "") :
    (∀ e, client.Show { Name := g.ExternalName } = .error e →
      (qualitygate.Observe client g).observation.ResourceExists = false ∧
      (qualitygate.Observe client g).err =
        some (Controller.errorsWrap e qualitygate.errShowQualityGate)) ∧
    (∀ e, client.Show { Name := c.ExternalName } = .error e →
      (qualitygatecondition.Observe client c).observation.ResourceExists = false ∧
      (qualitygatecondition.Observe client c).err =
        some (Controller.errorsWrap e qualitygatecondition.errShowQualityGateCondition)) ∧
    (∀ qg, client.Show { Name := c.ExternalName } = .ok qg →
      ∀ e, Instance.FindQualityGateConditionObservation c.ExternalName qg.Conditions =
          .error e →
      (qualitygatecondition.Observe client c).observation.ResourceExists = false ∧
      (qualitygatecondition.Observe client c).err =
        some (Controller.errorsWrap e qualitygatecondition.errShowQualityGateCondition)) := by
  refine ⟨?_, ?_, ?_⟩
  · intro e he
    constructor <;> simp_all [qualitygate.Observe, hg, he]
  · intro e he
    constructor <;> simp_all [qualitygatecondition.Observe, hc, he]
  · intro qg hqg e he
    constructor <;> simp_all [qualitygatecondition.Observe, hc, hqg, he]

/-- C3 witness: the amended Observe behaviour evaluated against the
all-failing client on the tracked gate and condition fixtures. -/
theorem c3_witness :
    Fixtures.gateLocalRemote.ExternalName ≠ "" ∧
    Fixtures.condTracked.ExternalName ≠ "" ∧
    Fixtures.clientAllFail.Show { Name := Fixtures.gateLocalRemote.ExternalName } =
      .error "remote error" ∧
    ((qualitygate.Observe Fixtures.clientAllFail
        Fixtures.gateLocalRemote).observation.ResourceExists = false ∧
      (qualitygate.Observe Fixtures.clientAllFail Fixtures.gateLocalRemote).err =
        some (Controller.errorsWrap "remote error" qualitygate.errShowQualityGate)) ∧
    ((qualitygatecondition.Observe Fixtures.clientAllFail
        Fixtures.condTracked).observation.ResourceExists = false ∧
      (qualitygatecondition.Observe Fixtures.clientAllFail Fixtures.condTracked).err =
        some (Controller.errorsWrap "remote error"
          qualitygatecondition.errShowQualityGateCondition)) :=
  ⟨by decide, by decide, rfl,
    (c3_observe_surfaces_lookup_failure Fixtures.clientAllFail Fixtures.gateLocalRemote
      Fixtures.condTracked (by decide) (by decide)).1 "remote error" rfl,
    (c3_observe_surfaces_lookup_failure Fixtures.clientAllFail Fixtures.gateLocalRemote
      Fixtures.condTracked (by decide) (by decide)).2.1 "remote error" rfl⟩

/-- C4 counterexample: the remote create returns ID "gate-123" and
display name "remote-gate"; the stored external identity is the ID
field, not the remote display name. -/
theorem c4_counterexample :
    Fixtures.clientCreateOk.Create { Name := Fixtures.gateUncreated.Spec.Name } =
      .ok { ID := "gate-123", Name := "remote-gate" } ∧
    (qualitygate.Create Fixtures.clientCreateOk
        Fixtures.gateUncreated).cr.ExternalName = "gate-123" ∧
    ("gate-123" : String) ≠ "remote-gate" :=
  ⟨rfl, rfl, by decide⟩

/-- C4 (amended): after a successful Create the stored external identity
equals the ID field of the remote create response — for the gate the
response's ID (not its display-name field and not any local resource
name), for the condition the remote-assigned identifier. -/
theorem c4_external_identity_from_create_response (client : Controller.QualityGatesClient)
    (g : Controller.QualityGate) (c : Controller.QualityGateCondition)
    (obj : SonarQube.QualitygatesCreateObject)
    (cobj : SonarQube.QualitygatesCreateConditionObject)
    (copts : SonarQube.QualitygatesCreateConditionOption)
    (hg : client.Create (Instance.GenerateQualityGateCreateOptions g.Spec) = .ok obj)
    (hc : Instance.GenerateCreateQualityGateConditionOption c.Spec = some copts)
    (hcc : client.CreateCondition copts = .ok cobj) :
    (qualitygate.Create client g).cr.ExternalName = obj.ID ∧
    (qualitygatecondition.Create client c).cr.ExternalName = cobj.ID := by
  constructor
  · have hspec : ({ g with ExternalName := obj.ID } : Controller.QualityGate).Spec = g.Spec :=
      rfl
    cases hd : g.Spec.Default with
    | none => simp [qualitygate.Create, hg, hspec, hd]
    | some b =>
      cases b with
      | false => simp [qualitygate.Create, hg, hspec, hd]
      | true =>
        cases hsd : client.SetAsDefault { Name := g.Name } with
        | error e => simp [qualitygate.Create, hg, hspec, hd, hsd]
        | ok u => simp [qualitygate.Create, hg, hspec, hd, hsd]
  · simp [qualitygatecondition.Create, hc, hcc]

/-- C4 witness: the amended identity rule evaluated on the fixture client
(gate identity "gate-123", condition identity "cond-77"). -/
theorem c4_witness :
    Fixtures.clientCreateOk.Create
        (Instance.GenerateQualityGateCreateOptions Fixtures.gateUncreated.Spec) =
      .ok { ID := "gate-123", Name := "remote-gate" } ∧
    Instance.GenerateCreateQualityGateConditionOption Fixtures.condTracked.Spec =
      some { GateName := "test-gate", Error := "80", Metric := "coverage", Op := "LT" } ∧
    Fixtures.clientCreateOk.CreateCondition
        { GateName := "test-gate", Error := "80", Metric := "coverage", Op := "LT" } =
      .ok { ID := "cond-77" } ∧
    ((qualitygate.Create Fixtures.clientCreateOk
        Fixtures.gateUncreated).cr.ExternalName = "gate-123" ∧
      (qualitygatecondition.Create Fixtures.clientCreateOk
        Fixtures.condTracked).cr.ExternalName = "cond-77") :=
  ⟨rfl, rfl, rfl,
    c4_external_identity_from_create_response Fixtures.clientCreateOk Fixtures.gateUncreated
      Fixtures.condTracked { ID := "gate-123", Name := "remote-gate" } { ID := "cond-77" }
      { GateName := "test-gate", Error := "80", Metric := "coverage", Op := "LT" }
      rfl rfl rfl⟩
